import Mathlib

/-!
Verification of esp32_oled_display: LED / button / OLED controller.

A shallow embedding of `src/main.c` (struct based variant, edge-triggered
buttons, "clear" master switch) and `src/main.cpp` (global-variable variant,
level-triggered buttons, "preserve" master switch), followed by the
properties of the button state machine, the display cache and the control
loop.

Conventions of the embedding
* a `char` buffer is a `List Char`; the string it holds is `cstr`, the
  characters before the first terminator (the end of the list also acts as a
  terminator);
* hardware effects (`gpio_set_level`, `vTaskDelay`, `ssd1306_display_text`)
  are recorded, in program order, in a list of `Event`s returned next to the
  new state;
* `gpio_get_level` is an input: each call consumes one level supplied by the
  environment.
-/

namespace Esp32Oled

/-! ## C strings -/

/-- The terminator character of a C string. -/
def NUL : Char := Char.ofNat 0

/-- The string held by a `char` buffer: the characters before the first terminator. -/
def cstr (s : List Char) : List Char := s.takeWhile (fun c => c != NUL)

/-- Number of characters before the terminator (`strlen`). -/
def strlen (s : List Char) : Nat := (cstr s).length

/-- Byte-wise comparison up to the first difference or the common terminator
(`strcmp`); past the end of a list the byte read is the terminator. -/
def strcmp : List Char → List Char → Int
  | [], [] => 0
  | [], b :: _ => 0 - (b.toNat : Int)
  | a :: _, [] => (a.toNat : Int)
  | a :: s, b :: t =>
    if a ≠ b then (a.toNat : Int) - (b.toNat : Int)
    else if a = NUL then 0
    else strcmp s t

/-- Copy at most `n` characters of `src` into `dst` and fill up to `n` bytes
with terminators; bytes of `dst` from index `n` on are untouched (`strncpy`). -/
def strncpy (dst src : List Char) (n : Nat) : List Char :=
  (cstr src).take n ++ List.replicate (n - strlen src) NUL ++ dst.drop n

/-- Formatted print of one `%s` argument into a buffer of `size` bytes: at most
`size - 1` characters and one terminator are written, later bytes of `dst` are
untouched (`snprintf(dst, size, "%s", src)`). -/
def snprintf (dst : List Char) (size : Nat) (src : List Char) : List Char :=
  if size = 0 then dst
  else (cstr src).take (size - 1) ++ NUL :: dst.drop (min (strlen src) (size - 1) + 1)

/-- Content of a fresh `char[16]` local before it is written. C leaves it
indeterminate; the callers below read only bytes they wrote first
(`text_of_strncpy`, `text_of_snprintf` hold for every initial content). -/
def uninitialised : List Char := List.replicate 16 NUL

/-! ## Hardware effects -/

/-- One call of a hardware primitive. `ssd1306_display_text` records the
`text_len` characters of `text` that are rendered. -/
inductive Event where
  | gpio_set_level (pin : Nat) (level : Nat)
  | vTaskDelay (ms : Nat)
  | ssd1306_display_text (page : Nat) (text : List Char) (invert : Bool)
  deriving DecidableEq, Repr

/-- The display writes of a trace, as (row, text) pairs in program order. -/
def displayWrites : List Event → List (Nat × List Char)
  | [] => []
  | Event.ssd1306_display_text page text _ :: es => (page, text) :: displayWrites es
  | _ :: es => displayWrites es

/-- The levels written to `pin` in a trace, in program order. -/
def pinWrites (pin : Nat) : List Event → List Nat
  | [] => []
  | Event.gpio_set_level p level :: es =>
    if p = pin then level :: pinWrites pin es else pinWrites pin es
  | _ :: es => pinWrites pin es

/-- The text most recently written to display row `row`, if any. -/
def lastText (row : Nat) (writes : List (Nat × List Char)) : Option (List Char) :=
  ((writes.filter (fun w => w.1 == row)).getLast?).map Prod.snd

/-! ## main.c: LEDs -/

namespace MainC

structure LED where
  pin : Nat
  status : Bool
  deriving DecidableEq, Repr

structure Button where
  pin : Nat
  lastState : Bool
  deriving DecidableEq, Repr

/-- The three cached lines of `OLED_Display` (the device handle carries no
state of interest). In main.cpp the same three buffers are globals. -/
structure OLED_Display where
  last_green_status : List Char
  last_yellow_status : List Char
  last_red_status : List Char
  deriving DecidableEq, Repr

def led_init (pin : Nat) : LED := { pin := pin, status := false }

def led_on (led : LED) : LED × List Event :=
  ({ led with status := true }, [Event.gpio_set_level led.pin 1])

def led_off (led : LED) : LED × List Event :=
  ({ led with status := false }, [Event.gpio_set_level led.pin 0])

def led_toggle (led : LED) : LED × List Event :=
  ({ led with status := !led.status },
   [Event.gpio_set_level led.pin (if !led.status then 1 else 0)])

def led_is_on (led : LED) : Bool := led.status

/-! ## main.c: buttons -/

def button_init (pin : Nat) : Button := { pin := pin, lastState := false }

/-- One poll of a button; `level` is what `gpio_get_level(button->pin)` returns.
Result: the return value, the button afterwards, the effects. -/
def button_is_pressed (button : Button) (level : Nat) : Bool × Button × List Event :=
  let currentState := (level == 0)
  if currentState && !button.lastState then
    (true, { button with lastState := true }, [Event.vTaskDelay 50])
  else if !currentState then
    (false, { button with lastState := false }, [])
  else
    (false, button, [])

/-- Return values of successive polls of one button on a sequence of levels. -/
def pollSeq (button : Button) : List Nat → List Bool
  | [] => []
  | level :: rest =>
    (button_is_pressed button level).1 :: pollSeq (button_is_pressed button level).2.1 rest

/-! ## main.c: display -/

/-- Cache part of `oled_init`: the three `memset(.., 0, 16)` calls. -/
def oled_init : OLED_Display :=
  { last_green_status := List.replicate 16 NUL
    last_yellow_status := List.replicate 16 NUL
    last_red_status := List.replicate 16 NUL }

/-- Body of `oled_update`: one test over the three lines; when it fires, the
three cache lines are overwritten and the three rows are written. -/
def oled_update (display : OLED_Display) (green_status yellow_status red_status : List Char) :
    OLED_Display × List Event :=
  if strcmp green_status display.last_green_status != 0 ||
     strcmp yellow_status display.last_yellow_status != 0 ||
     strcmp red_status display.last_red_status != 0 then
    let green_text := (strncpy uninitialised green_status (16 - 1)).set (16 - 1) NUL
    let yellow_text := (strncpy uninitialised yellow_status (16 - 1)).set (16 - 1) NUL
    let red_text := (strncpy uninitialised red_status (16 - 1)).set (16 - 1) NUL
    ({ last_green_status :=
         (strncpy display.last_green_status green_status (16 - 1)).set (16 - 1) NUL
       last_yellow_status :=
         (strncpy display.last_yellow_status yellow_status (16 - 1)).set (16 - 1) NUL
       last_red_status :=
         (strncpy display.last_red_status red_status (16 - 1)).set (16 - 1) NUL },
     [Event.ssd1306_display_text 0 (green_text.take (strlen green_text)) false,
      Event.ssd1306_display_text 1 (yellow_text.take (strlen yellow_text)) false,
      Event.ssd1306_display_text 2 (red_text.take (strlen red_text)) false])
  else
    (display, [])

/-! ## main.c: control loop -/

/-- ESP-IDF pin numbers used by `app_main`: `GPIO_NUM_n` is `n`. -/
def GPIO_NUM_2 : Nat := 2

/-- See `GPIO_NUM_2`. -/
def GPIO_NUM_19 : Nat := 19

/-- See `GPIO_NUM_2`. -/
def GPIO_NUM_18 : Nat := 18

/-- See `GPIO_NUM_2`. -/
def GPIO_NUM_5 : Nat := 5

/-- See `GPIO_NUM_2`. -/
def GPIO_NUM_17 : Nat := 17

/-- See `GPIO_NUM_2`. -/
def GPIO_NUM_16 : Nat := 16

/-- See `GPIO_NUM_2`. -/
def GPIO_NUM_4 : Nat := 4

/-- The variables of `app_main` that live across loop iterations. -/
structure AppState where
  greenLED : LED
  yellowLED : LED
  redLED : LED
  greenButton : Button
  yellowButton : Button
  redButton : Button
  onOffButton : Button
  display : OLED_Display
  leds_on : Bool
  deriving DecidableEq, Repr

/-- The four values `gpio_get_level` returns in one loop iteration, in the
order they are read (green, yellow, red, on/off button). -/
structure Levels where
  green : Nat
  yellow : Nat
  red : Nat
  onOff : Nat
  deriving DecidableEq, Repr

/-- Outcome of one loop iteration: the state afterwards, the hardware effects
in program order and the three status strings the iteration composed. -/
structure LoopResult where
  state : AppState
  trace : List Event
  green_status : List Char
  yellow_status : List Char
  red_status : List Char

/-- State of `app_main` on entry to the loop (lines 143-158). -/
def app_main_init : AppState :=
  { greenLED := led_init GPIO_NUM_2
    yellowLED := led_init GPIO_NUM_19
    redLED := led_init GPIO_NUM_18
    greenButton := button_init GPIO_NUM_5
    yellowButton := button_init GPIO_NUM_17
    redButton := button_init GPIO_NUM_16
    onOffButton := button_init GPIO_NUM_4
    display := oled_init
    leds_on := true }

/-- One iteration of the `while (1)` loop of `app_main` (lines 161-192). -/
def app_main_loop (s : AppState) (inp : Levels) : LoopResult :=
  let b1 := button_is_pressed s.greenButton inp.green
  let l1 := if b1.1 then led_toggle s.greenLED else (s.greenLED, [])
  let b2 := button_is_pressed s.yellowButton inp.yellow
  let l2 := if b2.1 then led_toggle s.yellowLED else (s.yellowLED, [])
  let b3 := button_is_pressed s.redButton inp.red
  let l3 := if b3.1 then led_toggle s.redLED else (s.redLED, [])
  let b4 := button_is_pressed s.onOffButton inp.onOff
  let leds_on := if b4.1 then !s.leds_on else s.leds_on
  let g := if b4.1 && !leds_on then led_off l1.1 else (l1.1, [])
  let y := if b4.1 && !leds_on then led_off l2.1 else (l2.1, [])
  let r := if b4.1 && !leds_on then led_off l3.1 else (l3.1, [])
  let drive :=
    [Event.gpio_set_level GPIO_NUM_2 (if leds_on && led_is_on g.1 then 1 else 0),
     Event.gpio_set_level GPIO_NUM_19 (if leds_on && led_is_on y.1 then 1 else 0),
     Event.gpio_set_level GPIO_NUM_18 (if leds_on && led_is_on r.1 then 1 else 0)]
  let green_status :=
    if leds_on && led_is_on g.1 then "Green LED: ON".toList else "Green LED: OFF".toList
  let yellow_status :=
    if leds_on && led_is_on y.1 then "Yellow LED: ON".toList else "Yellow LED: OFF".toList
  let red_status :=
    if leds_on && led_is_on r.1 then "Red LED: ON".toList else "Red LED: OFF".toList
  let d := oled_update s.display green_status yellow_status red_status
  { state :=
      { greenLED := g.1, yellowLED := y.1, redLED := r.1
        greenButton := b1.2.1, yellowButton := b2.2.1, redButton := b3.2.1
        onOffButton := b4.2.1, display := d.1, leds_on := leds_on }
    trace := b1.2.2 ++ l1.2 ++ b2.2.2 ++ l2.2 ++ b3.2.2 ++ l3.2 ++ b4.2.2 ++
      g.2 ++ y.2 ++ r.2 ++ drive ++ d.2 ++ [Event.vTaskDelay 50]
    green_status := green_status
    yellow_status := yellow_status
    red_status := red_status }

/-- State after running the loop over a sequence of iterations. -/
def app_main_run (s : AppState) (ins : List Levels) : AppState :=
  ins.foldl (fun st x => (app_main_loop st x).state) s

/-- Effective levels (green, yellow, red): master switch and LED status. -/
def effective (s : AppState) : Bool × Bool × Bool :=
  (s.leds_on && led_is_on s.greenLED, s.leds_on && led_is_on s.yellowLED,
   s.leds_on && led_is_on s.redLED)

/-- Successive `oled_update` calls: the cache afterwards and all display
writes in program order. -/
def oled_run (display : OLED_Display) :
    List (List Char × List Char × List Char) → OLED_Display × List (Nat × List Char)
  | [] => (display, [])
  | c :: cs =>
    let r := oled_update display c.1 c.2.1 c.2.2
    ((oled_run r.1 cs).1, displayWrites r.2 ++ (oled_run r.1 cs).2)

/-- The press events of one loop iteration: the return values of the four
`button_is_pressed` calls (green, yellow, red, on/off). -/
def pressEvents (s : AppState) (x : Levels) : Bool × Bool × Bool × Bool :=
  ((button_is_pressed s.greenButton x.green).1, (button_is_pressed s.yellowButton x.yellow).1,
   (button_is_pressed s.redButton x.red).1, (button_is_pressed s.onOffButton x.onOff).1)

/-- No button emits a press event in any of the iterations `xs` run from `s`. -/
def quiet : AppState → List Levels → Bool
  | _, [] => true
  | s, x :: xs =>
    pressEvents s x == (false, false, false, false) && quiet (app_main_loop s x).state xs

/-- The level last written to each LED pin (green, yellow, red) in one iteration. -/
def LoopResult.levels (r : LoopResult) : Option Nat × Option Nat × Option Nat :=
  ((pinWrites GPIO_NUM_2 r.trace).getLast?, (pinWrites GPIO_NUM_19 r.trace).getLast?,
   (pinWrites GPIO_NUM_18 r.trace).getLast?)

end MainC

/-! ## main.cpp -/

namespace MainCpp

/-- The global display cache of main.cpp (`last_green_status` and its two
siblings, each `char[16]`). -/
structure Globals where
  last_green_status : List Char
  last_yellow_status : List Char
  last_red_status : List Char
  deriving DecidableEq, Repr

/-- Initial value of the globals: each buffer is initialised with `""`, which
zero-fills all 16 bytes. -/
def globals_init : Globals :=
  { last_green_status := List.replicate 16 NUL
    last_yellow_status := List.replicate 16 NUL
    last_red_status := List.replicate 16 NUL }

/-- Body of `update_oled`: as `oled_update` of main.c, with the row texts
produced by `snprintf` instead of `strncpy`. -/
def update_oled (G : Globals) (green_status yellow_status red_status : List Char) :
    Globals × List Event :=
  if strcmp green_status G.last_green_status != 0 ||
     strcmp yellow_status G.last_yellow_status != 0 ||
     strcmp red_status G.last_red_status != 0 then
    let green_text := (snprintf uninitialised 16 green_status).set (16 - 1) NUL
    let yellow_text := (snprintf uninitialised 16 yellow_status).set (16 - 1) NUL
    let red_text := (snprintf uninitialised 16 red_status).set (16 - 1) NUL
    ({ last_green_status := (strncpy G.last_green_status green_status (16 - 1)).set (16 - 1) NUL
       last_yellow_status :=
         (strncpy G.last_yellow_status yellow_status (16 - 1)).set (16 - 1) NUL
       last_red_status := (strncpy G.last_red_status red_status (16 - 1)).set (16 - 1) NUL },
     [Event.ssd1306_display_text 0 (green_text.take (strlen green_text)) false,
      Event.ssd1306_display_text 1 (yellow_text.take (strlen yellow_text)) false,
      Event.ssd1306_display_text 2 (red_text.take (strlen red_text)) false])
  else
    (G, [])

/-- Pin macros of main.cpp. -/
def GREEN_LED : Nat := 2

/-- See `GREEN_LED`. -/
def YELLOW_LED : Nat := 19

/-- See `GREEN_LED`. -/
def RED_LED : Nat := 18

/-- The locals of `app_main` that live across loop iterations, and the globals. -/
structure AppState where
  green_led_on : Bool
  yellow_led_on : Bool
  red_led_on : Bool
  leds_on : Bool
  globals : Globals
  deriving DecidableEq, Repr

/-- The four values `gpio_get_level` returns in one loop iteration, in the
order they are read (BUTTON_GREEN, BUTTON_YELLOW, BUTTON_RED, BUTTON_ON_OUT). -/
structure Levels where
  green : Nat
  yellow : Nat
  red : Nat
  onOff : Nat
  deriving DecidableEq, Repr

/-- Outcome of one loop iteration: the state afterwards, the hardware effects
in program order and the three status strings the iteration composed. -/
structure LoopResult where
  state : AppState
  trace : List Event
  green_status : List Char
  yellow_status : List Char
  red_status : List Char

/-- State of `app_main` on entry to the loop (lines 118-125). -/
def app_main_init : AppState :=
  { green_led_on := false, yellow_led_on := false, red_led_on := false, leds_on := true
    globals := globals_init }

/-- One iteration of the `while (true)` loop of `app_main` (lines 129-160). -/
def app_main_loop (s : AppState) (inp : Levels) : LoopResult :=
  let green_led_on := if inp.green == 0 then !s.green_led_on else s.green_led_on
  let t1 := if inp.green == 0 then [Event.vTaskDelay 200] else []
  let yellow_led_on := if inp.yellow == 0 then !s.yellow_led_on else s.yellow_led_on
  let t2 := if inp.yellow == 0 then [Event.vTaskDelay 200] else []
  let red_led_on := if inp.red == 0 then !s.red_led_on else s.red_led_on
  let t3 := if inp.red == 0 then [Event.vTaskDelay 200] else []
  let leds_on := if inp.onOff == 0 then !s.leds_on else s.leds_on
  let t4 := if inp.onOff == 0 then [Event.vTaskDelay 200] else []
  let drive :=
    [Event.gpio_set_level GREEN_LED (if leds_on && green_led_on then 1 else 0),
     Event.gpio_set_level YELLOW_LED (if leds_on && yellow_led_on then 1 else 0),
     Event.gpio_set_level RED_LED (if leds_on && red_led_on then 1 else 0)]
  let green_status :=
    if leds_on && green_led_on then "Green LED: ON".toList else "Green LED: OFF".toList
  let yellow_status :=
    if leds_on && yellow_led_on then "Yellow LED: ON".toList else "Yellow LED: OFF".toList
  let red_status :=
    if leds_on && red_led_on then "Red LED: ON".toList else "Red LED: OFF".toList
  let d := update_oled s.globals green_status yellow_status red_status
  { state :=
      { green_led_on := green_led_on, yellow_led_on := yellow_led_on
        red_led_on := red_led_on, leds_on := leds_on, globals := d.1 }
    trace := t1 ++ t2 ++ t3 ++ t4 ++ drive ++ d.2 ++ [Event.vTaskDelay 50]
    green_status := green_status
    yellow_status := yellow_status
    red_status := red_status }

/-- State after running the loop over a sequence of iterations. -/
def app_main_run (s : AppState) (ins : List Levels) : AppState :=
  ins.foldl (fun st x => (app_main_loop st x).state) s

/-- Successive `update_oled` calls: the cache afterwards and all display
writes in program order. -/
def update_run (G : Globals) :
    List (List Char × List Char × List Char) → Globals × List (Nat × List Char)
  | [] => (G, [])
  | c :: cs =>
    let r := update_oled G c.1 c.2.1 c.2.2
    ((update_run r.1 cs).1, displayWrites r.2 ++ (update_run r.1 cs).2)

/-- The level last written to each LED pin (green, yellow, red) in one iteration. -/
def LoopResult.levels (r : LoopResult) : Option Nat × Option Nat × Option Nat :=
  ((pinWrites GREEN_LED r.trace).getLast?, (pinWrites YELLOW_LED r.trace).getLast?,
   (pinWrites RED_LED r.trace).getLast?)

/-- The three status strings one iteration composed. -/
def LoopResult.strings (r : LoopResult) : List Char × List Char × List Char :=
  (r.green_status, r.yellow_status, r.red_status)

/-- Only the master-enable button reads low. -/
def Levels.onlyOnOff (x : Levels) : Bool :=
  x.green != 0 && x.yellow != 0 && x.red != 0 && x.onOff == 0

/-- No button reads low. -/
def Levels.idle (x : Levels) : Bool :=
  x.green != 0 && x.yellow != 0 && x.red != 0 && x.onOff != 0

/-- The globals of main.cpp read as the cache structure of main.c. -/
def Globals.toDisplay (G : Globals) : MainC.OLED_Display :=
  { last_green_status := G.last_green_status
    last_yellow_status := G.last_yellow_status
    last_red_status := G.last_red_status }

end MainCpp

/-! ## C strings: lemmas -/

theorem cstr_no_nul (s : List Char) : ∀ c ∈ cstr s, (c != NUL) = true := by
  intro c hc
  have h := @List.mem_takeWhile_imp Char (fun c => c != NUL) s c hc
  simpa using h

theorem cstr_append_stop (p q : List Char) (hp : ∀ c ∈ p, (c != NUL) = true)
    (hq : q.head? = none ∨ q.head? = some NUL) : cstr (p ++ q) = p := by
  unfold cstr
  rw [List.takeWhile_append_of_pos hp]
  cases q with
  | nil => simp
  | cons a t =>
    have ha : a = NUL := by simpa using hq
    subst ha
    simp [List.takeWhile_cons]

theorem take_strlen (s : List Char) : s.take (strlen s) = cstr s := by
  unfold strlen cstr
  induction s with
  | nil => simp
  | cons a t ih =>
    by_cases h : (a != NUL) = true
    · simp [List.takeWhile_cons, h, ih]
    · simp [List.takeWhile_cons, h]

theorem toNat_sub_ne_zero (a b : Char) (h : a ≠ b) : (a.toNat : Int) - (b.toNat : Int) ≠ 0 := by
  intro h2
  apply h
  have h3 : a.toNat = b.toNat := by omega
  exact Char.ext (UInt32.ext (by simpa [Char.toNat, UInt32.toNat] using h3))

theorem toNat_eq_zero_iff (a : Char) : (a.toNat : Int) = 0 ↔ a = NUL := by
  constructor
  · intro h
    by_contra hne
    have h2 := toNat_sub_ne_zero a NUL hne
    have h3 : NUL.toNat = 0 := by decide
    rw [h3] at h2
    omega
  · intro h
    subst h
    decide

theorem NUL_toNat : NUL.toNat = 0 := by decide

theorem cstr_nil : cstr [] = [] := rfl

theorem cstr_cons (a : Char) (t : List Char) :
    cstr (a :: t) = if a = NUL then [] else a :: cstr t := by
  unfold cstr
  by_cases h : a = NUL <;> simp [List.takeWhile_cons, h]

/-- The comparison `strcmp(a, b) != 0` tests whether the two strings differ. -/
theorem strcmp_eq_zero_iff : ∀ a b : List Char, strcmp a b = 0 ↔ cstr a = cstr b
  | [], [] => by simp [strcmp]
  | [], b :: t => by
    have hb := toNat_eq_zero_iff b
    by_cases h : b = NUL
    · subst h
      simp [strcmp, cstr_cons, cstr_nil, NUL_toNat]
    · have : (b.toNat : Int) ≠ 0 := fun h0 => h (hb.1 h0)
      simp [strcmp, cstr_cons, cstr_nil, h]
      omega
  | a :: s, [] => by
    have ha := toNat_eq_zero_iff a
    by_cases h : a = NUL
    · subst h
      simp [strcmp, cstr_cons, cstr_nil, NUL_toNat]
    · have : (a.toNat : Int) ≠ 0 := fun h0 => h (ha.1 h0)
      simp [strcmp, cstr_cons, cstr_nil, h]
      omega
  | a :: s, b :: t => by
    have ih := strcmp_eq_zero_iff s t
    by_cases hab : a = b
    · subst hab
      by_cases h : a = NUL
      · simp [strcmp, cstr_cons, h]
      · simp [strcmp, cstr_cons, h, ih]
    · have hne := toNat_sub_ne_zero a b hab
      by_cases ha : a = NUL <;> by_cases hb : b = NUL
      · exact absurd (ha.trans hb.symm) hab
      · subst ha
        simp [strcmp, cstr_cons, hab, hb, hne]
      · subst hb
        simp [strcmp, cstr_cons, hab, ha, hne]
      · simp [strcmp, cstr_cons, hab, ha, hb, hne]

/-- What a 16-byte buffer holds after `strncpy(buf, src, 15); buf[15] = 0`,
whatever it held before: the first 15 characters of `src`. -/
theorem text_of_strncpy (dst src : List Char) :
    cstr ((strncpy dst src 15).set 15 NUL) = (cstr src).take 15 := by
  have hp : ∀ c ∈ (cstr src).take 15, (c != NUL) = true :=
    fun c hc => cstr_no_nul src c (List.mem_of_mem_take hc)
  unfold strncpy strlen
  by_cases hlen : (cstr src).length < 15
  · obtain ⟨k, hk⟩ : ∃ k, 15 - (cstr src).length = k + 1 := ⟨14 - (cstr src).length, by omega⟩
    rw [hk, List.replicate_succ, List.append_assoc, List.set_append]
    have hl : ((cstr src).take 15).length ≤ 15 := by simp
    rw [if_neg (by omega)]
    apply cstr_append_stop _ _ hp
    right
    cases hi : 15 - (List.take 15 (cstr src)).length with
    | zero => simp
    | succ m => simp
  · have h0 : 15 - (cstr src).length = 0 := by omega
    rw [h0, List.replicate_zero, List.append_nil, List.set_append]
    have hl : ((cstr src).take 15).length = 15 := by simp; omega
    rw [if_neg (by omega), hl]
    apply cstr_append_stop _ _ hp
    cases dst.drop 15 with
    | nil => left; simp
    | cons a t => right; simp

/-- What a 16-byte buffer holds after `snprintf(buf, 16, "%s", src); buf[15] = 0`,
whatever it held before: the first 15 characters of `src`. -/
theorem text_of_snprintf (dst src : List Char) :
    cstr ((snprintf dst 16 src).set 15 NUL) = (cstr src).take 15 := by
  have hp : ∀ c ∈ (cstr src).take 15, (c != NUL) = true :=
    fun c hc => cstr_no_nul src c (List.mem_of_mem_take hc)
  unfold snprintf
  simp only [show (16 : Nat) ≠ 0 by decide, if_false, show 16 - 1 = 15 by rfl]
  rw [List.set_append]
  have hl : ((cstr src).take 15).length ≤ 15 := by simp
  rw [if_neg (by omega)]
  apply cstr_append_stop _ _ hp
  right
  cases hi : 15 - (List.take 15 (cstr src)).length with
  | zero => simp
  | succ m => simp

/-! ## The reconcile operation -/

theorem oled_update_same (d : MainC.OLED_Display) (g y r : List Char)
    (hg : cstr g = cstr d.last_green_status) (hy : cstr y = cstr d.last_yellow_status)
    (hr : cstr r = cstr d.last_red_status) : MainC.oled_update d g y r = (d, []) := by
  have h1 := (strcmp_eq_zero_iff g d.last_green_status).2 hg
  have h2 := (strcmp_eq_zero_iff y d.last_yellow_status).2 hy
  have h3 := (strcmp_eq_zero_iff r d.last_red_status).2 hr
  simp [MainC.oled_update, h1, h2, h3]

theorem oled_update_changed (d : MainC.OLED_Display) (g y r : List Char)
    (h : cstr g ≠ cstr d.last_green_status ∨ cstr y ≠ cstr d.last_yellow_status ∨
      cstr r ≠ cstr d.last_red_status) :
    (MainC.oled_update d g y r).2 =
        [Event.ssd1306_display_text 0 ((cstr g).take 15) false,
         Event.ssd1306_display_text 1 ((cstr y).take 15) false,
         Event.ssd1306_display_text 2 ((cstr r).take 15) false] ∧
      cstr (MainC.oled_update d g y r).1.last_green_status = (cstr g).take 15 ∧
      cstr (MainC.oled_update d g y r).1.last_yellow_status = (cstr y).take 15 ∧
      cstr (MainC.oled_update d g y r).1.last_red_status = (cstr r).take 15 := by
  have hc : (strcmp g d.last_green_status != 0 || strcmp y d.last_yellow_status != 0 ||
      strcmp r d.last_red_status != 0) = true := by
    simp only [Bool.or_eq_true, bne_iff_ne, ne_eq, strcmp_eq_zero_iff]
    tauto
  unfold MainC.oled_update
  rw [if_pos hc]
  simp only [take_strlen, show 16 - 1 = 15 by rfl, text_of_strncpy]
  simp

theorem update_oled_same (G : MainCpp.Globals) (g y r : List Char)
    (hg : cstr g = cstr G.last_green_status) (hy : cstr y = cstr G.last_yellow_status)
    (hr : cstr r = cstr G.last_red_status) : MainCpp.update_oled G g y r = (G, []) := by
  have h1 := (strcmp_eq_zero_iff g G.last_green_status).2 hg
  have h2 := (strcmp_eq_zero_iff y G.last_yellow_status).2 hy
  have h3 := (strcmp_eq_zero_iff r G.last_red_status).2 hr
  simp [MainCpp.update_oled, h1, h2, h3]

theorem update_oled_changed (G : MainCpp.Globals) (g y r : List Char)
    (h : cstr g ≠ cstr G.last_green_status ∨ cstr y ≠ cstr G.last_yellow_status ∨
      cstr r ≠ cstr G.last_red_status) :
    (MainCpp.update_oled G g y r).2 =
        [Event.ssd1306_display_text 0 ((cstr g).take 15) false,
         Event.ssd1306_display_text 1 ((cstr y).take 15) false,
         Event.ssd1306_display_text 2 ((cstr r).take 15) false] ∧
      cstr (MainCpp.update_oled G g y r).1.last_green_status = (cstr g).take 15 ∧
      cstr (MainCpp.update_oled G g y r).1.last_yellow_status = (cstr y).take 15 ∧
      cstr (MainCpp.update_oled G g y r).1.last_red_status = (cstr r).take 15 := by
  have hc : (strcmp g G.last_green_status != 0 || strcmp y G.last_yellow_status != 0 ||
      strcmp r G.last_red_status != 0) = true := by
    simp only [Bool.or_eq_true, bne_iff_ne, ne_eq, strcmp_eq_zero_iff]
    tauto
  unfold MainCpp.update_oled
  rw [if_pos hc]
  simp only [take_strlen, show 16 - 1 = 15 by rfl, text_of_strncpy, text_of_snprintf]
  simp

/-- Reconciling twice with the same three lines, none longer than 15
characters, writes nothing the second time (main.c). -/
theorem oled_update_twice_short (d : MainC.OLED_Display) (g y r : List Char)
    (hg : strlen g ≤ 15) (hy : strlen y ≤ 15) (hr : strlen r ≤ 15) :
    (MainC.oled_update (MainC.oled_update d g y r).1 g y r).2 = [] := by
  unfold strlen at hg hy hr
  by_cases h : cstr g ≠ cstr d.last_green_status ∨ cstr y ≠ cstr d.last_yellow_status ∨
      cstr r ≠ cstr d.last_red_status
  · obtain ⟨-, h1, h2, h3⟩ := oled_update_changed d g y r h
    rw [oled_update_same _ g y r (by rw [h1, List.take_of_length_le hg])
      (by rw [h2, List.take_of_length_le hy]) (by rw [h3, List.take_of_length_le hr])]
  · have h1 : cstr g = cstr d.last_green_status := by tauto
    have h2 : cstr y = cstr d.last_yellow_status := by tauto
    have h3 : cstr r = cstr d.last_red_status := by tauto
    rw [oled_update_same d g y r h1 h2 h3, oled_update_same d g y r h1 h2 h3]

/-- Reconciling twice with the same three lines, none longer than 15
characters, writes nothing the second time (main.cpp). -/
theorem update_oled_twice_short (G : MainCpp.Globals) (g y r : List Char)
    (hg : strlen g ≤ 15) (hy : strlen y ≤ 15) (hr : strlen r ≤ 15) :
    (MainCpp.update_oled (MainCpp.update_oled G g y r).1 g y r).2 = [] := by
  unfold strlen at hg hy hr
  by_cases h : cstr g ≠ cstr G.last_green_status ∨ cstr y ≠ cstr G.last_yellow_status ∨
      cstr r ≠ cstr G.last_red_status
  · obtain ⟨-, h1, h2, h3⟩ := update_oled_changed G g y r h
    rw [update_oled_same _ g y r (by rw [h1, List.take_of_length_le hg])
      (by rw [h2, List.take_of_length_le hy]) (by rw [h3, List.take_of_length_le hr])]
  · have h1 : cstr g = cstr G.last_green_status := by tauto
    have h2 : cstr y = cstr G.last_yellow_status := by tauto
    have h3 : cstr r = cstr G.last_red_status := by tauto
    rw [update_oled_same G g y r h1 h2 h3, update_oled_same G g y r h1 h2 h3]

/-! ## Buttons (main.c) -/

theorem button_is_pressed_ret (b : MainC.Button) (l : Nat) :
    (MainC.button_is_pressed b l).1 = (l == 0 && !b.lastState) := by
  unfold MainC.button_is_pressed
  cases h1 : (l == 0) <;> cases h2 : b.lastState <;> simp

theorem button_is_pressed_lastState (b : MainC.Button) (l : Nat) :
    (MainC.button_is_pressed b l).2.1.lastState = (l == 0) := by
  unfold MainC.button_is_pressed
  cases h1 : (l == 0) <;> cases h2 : b.lastState <;> simp [h2]

theorem pollSeq_length (b : MainC.Button) (levels : List Nat) :
    (MainC.pollSeq b levels).length = levels.length := by
  induction levels generalizing b with
  | nil => rfl
  | cons l ls ih => simp [MainC.pollSeq, ih]

theorem pollSeq_event_iff (b : MainC.Button) (levels : List Nat) (i : Nat) :
    (MainC.pollSeq b levels)[i]? = some true ↔
      levels[i]? = some 0 ∧
        (if i = 0 then b.lastState = false else ∃ l, levels[i - 1]? = some l ∧ l ≠ 0) := by
  induction levels generalizing b i with
  | nil => simp [MainC.pollSeq]
  | cons l ls ih =>
    cases i with
    | zero =>
      simp [MainC.pollSeq, button_is_pressed_ret]
    | succ k =>
      simp only [MainC.pollSeq, List.getElem?_cons_succ, ih, button_is_pressed_lastState]
      cases k with
      | zero => simp
      | succ m => simp

theorem pollSeq_not_event (b : MainC.Button) (levels : List Nat) (i : Nat)
    (hi : i < levels.length) (h : ¬ (MainC.pollSeq b levels)[i]? = some true) :
    (MainC.pollSeq b levels)[i]? = some false := by
  have hl : i < (MainC.pollSeq b levels).length := by rw [pollSeq_length]; exact hi
  rw [List.getElem?_eq_getElem hl] at h ⊢
  cases hv : (MainC.pollSeq b levels)[i] with
  | false => rfl
  | true => rw [hv] at h; exact absurd rfl h

/-- C1: polling one button that starts released, the poll at index i returns
true exactly when the level read at i is active (0) and i is the first poll or
the level read at i-1 was inactive; so on every maximal run of active levels
[s, e) the returned values are one true, at s, followed by false only. -/
theorem C1_button_press_once_per_interval (pin : Nat) (levels : List Nat) :
    (∀ i : Nat, (MainC.pollSeq { pin := pin, lastState := false } levels)[i]? = some true ↔
        (levels[i]? = some 0 ∧ (i = 0 ∨ ∃ l, levels[i - 1]? = some l ∧ l ≠ 0))) ∧
    (∀ s e : Nat, s < e → e ≤ levels.length →
        (∀ j, s ≤ j → j < e → levels[j]? = some 0) →
        (s = 0 ∨ ∃ l, levels[s - 1]? = some l ∧ l ≠ 0) →
        ((MainC.pollSeq { pin := pin, lastState := false } levels).drop s).take (e - s) =
          true :: List.replicate (e - s - 1) false) := by
  have key : ∀ i : Nat,
      (MainC.pollSeq { pin := pin, lastState := false } levels)[i]? = some true ↔
        (levels[i]? = some 0 ∧ (i = 0 ∨ ∃ l, levels[i - 1]? = some l ∧ l ≠ 0)) := by
    intro i
    rw [pollSeq_event_iff]
    by_cases h0 : i = 0
    · simp [h0]
    · simp [h0]
  refine ⟨key, ?_⟩
  intro s e hse he hact hstart
  apply List.ext_getElem?
  intro j
  rw [List.getElem?_take]
  by_cases hj : j < e - s
  · rw [if_pos hj, List.getElem?_drop]
    cases j with
    | zero =>
      simp only [Nat.add_zero, List.getElem?_cons_zero]
      exact (key s).2 ⟨hact s (le_refl s) hse, hstart⟩
    | succ k =>
      rw [List.getElem?_cons_succ, List.getElem?_replicate, if_pos (by omega)]
      apply pollSeq_not_event _ _ _ (by omega)
      intro hev
      obtain ⟨-, hprev⟩ := (key (s + (k + 1))).1 hev
      rcases hprev with h0 | ⟨l, hl, hne⟩
      · omega
      · have := hact (s + (k + 1) - 1) (by omega) (by omega)
        rw [this] at hl
        exact hne (Option.some.inj hl).symm
  · rw [if_neg hj]
    cases j with
    | zero => omega
    | succ k =>
      rw [List.getElem?_cons_succ, List.getElem?_replicate, if_neg (by omega)]

/-- C1 at a concrete input: levels 1,0,0,0,1,0 give events at polls 1 and 5 only. -/
theorem C1_button_press_once_per_interval_witness :
    MainC.pollSeq { pin := 5, lastState := false } [1, 0, 0, 0, 1, 0] =
        [false, true, false, false, false, true] ∧
      ((MainC.pollSeq { pin := 5, lastState := false } [1, 0, 0, 0, 1, 0]).drop 1).take (4 - 1) =
        true :: List.replicate (4 - 1 - 1) false :=
  ⟨by decide,
   (C1_button_press_once_per_interval 5 [1, 0, 0, 0, 1, 0]).2 1 4 (by decide) (by decide)
     (by intro j h1 h2; interval_cases j <;> rfl) (Or.inr ⟨1, rfl, by decide⟩)⟩

/-! ## Reconcile: repeated and single-line updates -/

/-- C2 at a 16-character line: the cache keeps 15 characters, so the second
identical call compares unequal and writes all three rows again, in main.c
and in main.cpp. -/
theorem C2_second_call_rewrites_long_line :
    displayWrites (MainC.oled_update
        (MainC.oled_update MainC.oled_init "Temperature: 21C".toList [] []).1
        "Temperature: 21C".toList [] []).2 =
      [(0, "Temperature: 21".toList), (1, []), (2, [])] ∧
    displayWrites (MainCpp.update_oled
        (MainCpp.update_oled MainCpp.globals_init "Temperature: 21C".toList [] []).1
        "Temperature: 21C".toList [] []).2 =
      [(0, "Temperature: 21".toList), (1, []), (2, [])] := by
  decide

/-- C3 does not hold as worded: after reconciling ("A", "B", "C"), a call with
("X", "B", "C") changes the first line only, and three rows are written, the
unchanged rows 1 and 2 among them (main.c and main.cpp). -/
theorem C3_counterexample :
    (cstr "X".toList ≠
        cstr (MainC.oled_update MainC.oled_init "A".toList "B".toList "C".toList).1.last_green_status ∧
      cstr "B".toList =
        cstr (MainC.oled_update MainC.oled_init "A".toList "B".toList "C".toList).1.last_yellow_status ∧
      cstr "C".toList =
        cstr (MainC.oled_update MainC.oled_init "A".toList "B".toList "C".toList).1.last_red_status ∧
      displayWrites (MainC.oled_update
          (MainC.oled_update MainC.oled_init "A".toList "B".toList "C".toList).1
          "X".toList "B".toList "C".toList).2 =
        [(0, "X".toList), (1, "B".toList), (2, "C".toList)]) ∧
    displayWrites (MainCpp.update_oled
        (MainCpp.update_oled MainCpp.globals_init "A".toList "B".toList "C".toList).1
        "X".toList "B".toList "C".toList).2 =
      [(0, "X".toList), (1, "B".toList), (2, "C".toList)] := by
  decide

/-- C3, as the code has it: from a cache produced by a reconcile call, a following call
in which exactly one of the three lines differs from the cached content issues
exactly three writes, rows 0, 1 and 2 in this order, each with the first 15
characters of the line passed for that row (main.c and main.cpp). -/
theorem C3_one_changed_line_writes_three_rows :
    (∀ (d0 d : MainC.OLED_Display) (a b c g y r : List Char),
      d = (MainC.oled_update d0 a b c).1 →
      ((cstr g ≠ cstr d.last_green_status ∧ cstr y = cstr d.last_yellow_status ∧
          cstr r = cstr d.last_red_status) ∨
        (cstr g = cstr d.last_green_status ∧ cstr y ≠ cstr d.last_yellow_status ∧
          cstr r = cstr d.last_red_status) ∨
        (cstr g = cstr d.last_green_status ∧ cstr y = cstr d.last_yellow_status ∧
          cstr r ≠ cstr d.last_red_status)) →
      displayWrites (MainC.oled_update d g y r).2 =
        [(0, (cstr g).take 15), (1, (cstr y).take 15), (2, (cstr r).take 15)]) ∧
    (∀ (G0 G : MainCpp.Globals) (a b c g y r : List Char),
      G = (MainCpp.update_oled G0 a b c).1 →
      ((cstr g ≠ cstr G.last_green_status ∧ cstr y = cstr G.last_yellow_status ∧
          cstr r = cstr G.last_red_status) ∨
        (cstr g = cstr G.last_green_status ∧ cstr y ≠ cstr G.last_yellow_status ∧
          cstr r = cstr G.last_red_status) ∨
        (cstr g = cstr G.last_green_status ∧ cstr y = cstr G.last_yellow_status ∧
          cstr r ≠ cstr G.last_red_status)) →
      displayWrites (MainCpp.update_oled G g y r).2 =
        [(0, (cstr g).take 15), (1, (cstr y).take 15), (2, (cstr r).take 15)]) := by
  constructor
  · intro d0 d a b c g y r _ h
    have hch : cstr g ≠ cstr d.last_green_status ∨ cstr y ≠ cstr d.last_yellow_status ∨
        cstr r ≠ cstr d.last_red_status := by tauto
    rw [(oled_update_changed d g y r hch).1]
    rfl
  · intro G0 G a b c g y r _ h
    have hch : cstr g ≠ cstr G.last_green_status ∨ cstr y ≠ cstr G.last_yellow_status ∨
        cstr r ≠ cstr G.last_red_status := by tauto
    rw [(update_oled_changed G g y r hch).1]
    rfl

/-- C3, as the code has it, at a concrete input: cache from ("A", "B", "C"), then the
second line changes to "Y". -/
theorem C3_one_changed_line_writes_three_rows_witness :
    displayWrites (MainC.oled_update
        (MainC.oled_update MainC.oled_init "A".toList "B".toList "C".toList).1
        "A".toList "Y".toList "C".toList).2 =
      [(0, (cstr "A".toList).take 15), (1, (cstr "Y".toList).take 15),
       (2, (cstr "C".toList).take 15)] :=
  C3_one_changed_line_writes_three_rows.1 MainC.oled_init
    (MainC.oled_update MainC.oled_init "A".toList "B".toList "C".toList).1
    "A".toList "B".toList "C".toList "A".toList "Y".toList "C".toList rfl
    (Or.inr (Or.inl (by decide)))

/-! ## Reconcile: sequences of calls -/

theorem lastText_append (k : Nat) (w1 w2 : List (Nat × List Char)) :
    lastText k (w1 ++ w2) = (lastText k w2).or (lastText k w1) := by
  unfold lastText
  rw [List.filter_append, List.getLast?_append]
  cases (List.filter (fun w => w.1 == k) w2).getLast? <;> simp

theorem update_oled_toDisplay (G : MainCpp.Globals) (g y r : List Char) :
    (MainCpp.update_oled G g y r).2 = (MainC.oled_update G.toDisplay g y r).2 ∧
      (MainCpp.update_oled G g y r).1.toDisplay = (MainC.oled_update G.toDisplay g y r).1 := by
  unfold MainCpp.update_oled MainC.oled_update
  simp only [take_strlen, show 16 - 1 = 15 by rfl, text_of_strncpy, text_of_snprintf,
    MainCpp.Globals.toDisplay]
  split <;> simp [MainCpp.Globals.toDisplay]

theorem update_run_toDisplay (G : MainCpp.Globals) (calls : List (List Char × List Char × List Char)) :
    (MainCpp.update_run G calls).2 = (MainC.oled_run G.toDisplay calls).2 ∧
      (MainCpp.update_run G calls).1.toDisplay = (MainC.oled_run G.toDisplay calls).1 := by
  induction calls generalizing G with
  | nil => simp [MainCpp.update_run, MainC.oled_run]
  | cons c cs ih =>
    obtain ⟨h1, h2⟩ := update_oled_toDisplay G c.1 c.2.1 c.2.2
    obtain ⟨i1, i2⟩ := ih (MainCpp.update_oled G c.1 c.2.1 c.2.2).1
    simp only [MainCpp.update_run, MainC.oled_run, h1, i1, i2, h2, and_self]

/-- Each call leaves the cache untouched and writes nothing, or writes the
three rows with the 15-character prefixes and caches exactly these. -/
theorem oled_update_cases (d : MainC.OLED_Display) (g y r : List Char) :
    MainC.oled_update d g y r = (d, []) ∨
      (displayWrites (MainC.oled_update d g y r).2 =
          [(0, (cstr g).take 15), (1, (cstr y).take 15), (2, (cstr r).take 15)] ∧
        cstr (MainC.oled_update d g y r).1.last_green_status = (cstr g).take 15 ∧
        cstr (MainC.oled_update d g y r).1.last_yellow_status = (cstr y).take 15 ∧
        cstr (MainC.oled_update d g y r).1.last_red_status = (cstr r).take 15) := by
  by_cases h : cstr g ≠ cstr d.last_green_status ∨ cstr y ≠ cstr d.last_yellow_status ∨
      cstr r ≠ cstr d.last_red_status
  · right
    obtain ⟨h0, h1, h2, h3⟩ := oled_update_changed d g y r h
    refine ⟨?_, h1, h2, h3⟩
    rw [h0]
    rfl
  · left
    exact oled_update_same d g y r (by tauto) (by tauto) (by tauto)

theorem oled_run_cache (d : MainC.OLED_Display) (calls : List (List Char × List Char × List Char)) :
    cstr (MainC.oled_run d calls).1.last_green_status =
        (lastText 0 (MainC.oled_run d calls).2).getD (cstr d.last_green_status) ∧
      cstr (MainC.oled_run d calls).1.last_yellow_status =
        (lastText 1 (MainC.oled_run d calls).2).getD (cstr d.last_yellow_status) ∧
      cstr (MainC.oled_run d calls).1.last_red_status =
        (lastText 2 (MainC.oled_run d calls).2).getD (cstr d.last_red_status) := by
  induction calls generalizing d with
  | nil => simp [MainC.oled_run, lastText]
  | cons c cs ih =>
    obtain ⟨i0, i1, i2⟩ := ih (MainC.oled_update d c.1 c.2.1 c.2.2).1
    simp only [MainC.oled_run, lastText_append]
    rw [i0, i1, i2]
    rcases oled_update_cases d c.1 c.2.1 c.2.2 with h | ⟨hw, h0, h1, h2⟩
    · simp [h, displayWrites, lastText]
    · rw [hw, h0, h1, h2]
      have e0 : lastText 0 [(0, (cstr c.1).take 15), (1, (cstr c.2.1).take 15),
          (2, (cstr c.2.2).take 15)] = some ((cstr c.1).take 15) := by simp [lastText]
      have e1 : lastText 1 [(0, (cstr c.1).take 15), (1, (cstr c.2.1).take 15),
          (2, (cstr c.2.2).take 15)] = some ((cstr c.2.1).take 15) := by simp [lastText]
      have e2 : lastText 2 [(0, (cstr c.1).take 15), (1, (cstr c.2.1).take 15),
          (2, (cstr c.2.2).take 15)] = some ((cstr c.2.2).take 15) := by simp [lastText]
      rw [e0, e1, e2]
      refine ⟨?_, ?_, ?_⟩
      · cases lastText 0 (MainC.oled_run (MainC.oled_update d c.1 c.2.1 c.2.2).1 cs).2 <;> simp
      · cases lastText 1 (MainC.oled_run (MainC.oled_update d c.1 c.2.1 c.2.2).1 cs).2 <;> simp
      · cases lastText 2 (MainC.oled_run (MainC.oled_update d c.1 c.2.1 c.2.2).1 cs).2 <;> simp

theorem oled_run_writes_short (d : MainC.OLED_Display)
    (calls : List (List Char × List Char × List Char)) :
    ∀ w ∈ (MainC.oled_run d calls).2, w.2.length ≤ 15 := by
  induction calls generalizing d with
  | nil => simp [MainC.oled_run]
  | cons c cs ih =>
    intro w hw
    simp only [MainC.oled_run, List.mem_append] at hw
    rcases hw with hw | hw
    · rcases oled_update_cases d c.1 c.2.1 c.2.2 with h | ⟨hd, -⟩
      · simp [h, displayWrites] at hw
      · rw [hd] at hw
        simp only [List.mem_cons, List.mem_singleton, List.not_mem_nil, or_false] at hw
        rcases hw with rfl | rfl | rfl <;> simp
    · exact ih _ w hw

theorem lastText_mem (k : Nat) (ws : List (Nat × List Char)) (t : List Char)
    (h : lastText k ws = some t) : ∃ w ∈ ws, w.2 = t := by
  unfold lastText at h
  cases hl : (List.filter (fun w => w.1 == k) ws).getLast? with
  | none => simp [hl] at h
  | some w =>
    rw [hl] at h
    have hm := List.mem_of_getLast?_eq_some hl
    exact ⟨w, (List.mem_filter.1 hm).1, by simpa using h⟩

theorem take_min_strlen (g : List Char) :
    (cstr g).take (min (strlen g) 15) = (cstr g).take 15 := by
  unfold strlen
  by_cases h : (cstr g).length ≤ 15
  · rw [Nat.min_eq_left h, List.take_of_length_le h, List.take_of_length_le (le_refl _)]
  · rw [Nat.min_eq_right (by omega)]

theorem oled_run_init_spec (calls : List (List Char × List Char × List Char)) :
    (cstr (MainC.oled_run MainC.oled_init calls).1.last_green_status =
        (lastText 0 (MainC.oled_run MainC.oled_init calls).2).getD [] ∧
      cstr (MainC.oled_run MainC.oled_init calls).1.last_yellow_status =
        (lastText 1 (MainC.oled_run MainC.oled_init calls).2).getD [] ∧
      cstr (MainC.oled_run MainC.oled_init calls).1.last_red_status =
        (lastText 2 (MainC.oled_run MainC.oled_init calls).2).getD []) ∧
    (∀ w ∈ (MainC.oled_run MainC.oled_init calls).2, w.2.length ≤ 15) ∧
    (strlen (MainC.oled_run MainC.oled_init calls).1.last_green_status ≤ 15 ∧
      strlen (MainC.oled_run MainC.oled_init calls).1.last_yellow_status ≤ 15 ∧
      strlen (MainC.oled_run MainC.oled_init calls).1.last_red_status ≤ 15) := by
  have hc := oled_run_cache MainC.oled_init calls
  have e0 : cstr MainC.oled_init.last_green_status = [] := by decide
  have e1 : cstr MainC.oled_init.last_yellow_status = [] := by decide
  have e2 : cstr MainC.oled_init.last_red_status = [] := by decide
  rw [e0, e1, e2] at hc
  have hs := oled_run_writes_short MainC.oled_init calls
  have hlen : ∀ k : Nat,
      ((lastText k (MainC.oled_run MainC.oled_init calls).2).getD []).length ≤ 15 := by
    intro k
    cases hk : lastText k (MainC.oled_run MainC.oled_init calls).2 with
    | none => simp
    | some t =>
      obtain ⟨w, hw, rfl⟩ := lastText_mem k _ t hk
      simpa using hs w hw
  refine ⟨hc, hs, ?_, ?_, ?_⟩
  · unfold strlen; rw [hc.1]; exact hlen 0
  · unfold strlen; rw [hc.2.1]; exact hlen 1
  · unfold strlen; rw [hc.2.2]; exact hlen 2

theorem oled_update_writes_prefix (d : MainC.OLED_Display) (g y r : List Char) :
    ∀ w ∈ displayWrites (MainC.oled_update d g y r).2,
      w = (0, (cstr g).take (min (strlen g) 15)) ∨ w = (1, (cstr y).take (min (strlen y) 15)) ∨
        w = (2, (cstr r).take (min (strlen r) 15)) := by
  intro w hw
  simp only [take_min_strlen]
  rcases oled_update_cases d g y r with h | ⟨hd, -⟩
  · simp [h, displayWrites] at hw
  · rw [hd] at hw
    simpa using hw

/-- C9: over any sequence of reconcile calls from the all-empty cache, each
cached line equals the text last written to its row (empty if the row was
never written), every written text and every cached line has at most 15
characters, and every text a call writes to a row is the prefix of length
min(length, 15) of the line passed for that row (main.c, then main.cpp). -/
theorem C9_cache_mirrors_last_write :
    (∀ calls : List (List Char × List Char × List Char),
      (cstr (MainC.oled_run MainC.oled_init calls).1.last_green_status =
          (lastText 0 (MainC.oled_run MainC.oled_init calls).2).getD [] ∧
        cstr (MainC.oled_run MainC.oled_init calls).1.last_yellow_status =
          (lastText 1 (MainC.oled_run MainC.oled_init calls).2).getD [] ∧
        cstr (MainC.oled_run MainC.oled_init calls).1.last_red_status =
          (lastText 2 (MainC.oled_run MainC.oled_init calls).2).getD []) ∧
      (∀ w ∈ (MainC.oled_run MainC.oled_init calls).2, w.2.length ≤ 15) ∧
      (strlen (MainC.oled_run MainC.oled_init calls).1.last_green_status ≤ 15 ∧
        strlen (MainC.oled_run MainC.oled_init calls).1.last_yellow_status ≤ 15 ∧
        strlen (MainC.oled_run MainC.oled_init calls).1.last_red_status ≤ 15)) ∧
    (∀ (d : MainC.OLED_Display) (g y r : List Char),
      ∀ w ∈ displayWrites (MainC.oled_update d g y r).2,
        w = (0, (cstr g).take (min (strlen g) 15)) ∨
          w = (1, (cstr y).take (min (strlen y) 15)) ∨
          w = (2, (cstr r).take (min (strlen r) 15))) ∧
    (∀ calls : List (List Char × List Char × List Char),
      (cstr (MainCpp.update_run MainCpp.globals_init calls).1.last_green_status =
          (lastText 0 (MainCpp.update_run MainCpp.globals_init calls).2).getD [] ∧
        cstr (MainCpp.update_run MainCpp.globals_init calls).1.last_yellow_status =
          (lastText 1 (MainCpp.update_run MainCpp.globals_init calls).2).getD [] ∧
        cstr (MainCpp.update_run MainCpp.globals_init calls).1.last_red_status =
          (lastText 2 (MainCpp.update_run MainCpp.globals_init calls).2).getD []) ∧
      (∀ w ∈ (MainCpp.update_run MainCpp.globals_init calls).2, w.2.length ≤ 15) ∧
      (strlen (MainCpp.update_run MainCpp.globals_init calls).1.last_green_status ≤ 15 ∧
        strlen (MainCpp.update_run MainCpp.globals_init calls).1.last_yellow_status ≤ 15 ∧
        strlen (MainCpp.update_run MainCpp.globals_init calls).1.last_red_status ≤ 15)) ∧
    (∀ (G : MainCpp.Globals) (g y r : List Char),
      ∀ w ∈ displayWrites (MainCpp.update_oled G g y r).2,
        w = (0, (cstr g).take (min (strlen g) 15)) ∨
          w = (1, (cstr y).take (min (strlen y) 15)) ∨
          w = (2, (cstr r).take (min (strlen r) 15))) := by
  refine ⟨oled_run_init_spec, oled_update_writes_prefix, ?_, ?_⟩
  · intro calls
    obtain ⟨h1, h2⟩ := update_run_toDisplay MainCpp.globals_init calls
    have h3 := oled_run_init_spec calls
    have hi : MainCpp.globals_init.toDisplay = MainC.oled_init := rfl
    rw [hi] at h1 h2
    rw [← h1, ← h2] at h3
    exact h3
  · intro G g y r
    rw [(update_oled_toDisplay G g y r).1]
    exact oled_update_writes_prefix G.toDisplay g y r

/-- C9 at a concrete sequence: the second call changes nothing and writes
nothing, the third rewrites all rows, a 17-character line is cut to 15. -/
theorem C9_cache_mirrors_last_write_witness :
    (MainC.oled_run MainC.oled_init
        [("A".toList, "B".toList, "C".toList), ("A".toList, "B".toList, "C".toList),
         ("A".toList, "Temperature: 21 C".toList, "C".toList)]).2 =
      [(0, "A".toList), (1, "B".toList), (2, "C".toList),
       (0, "A".toList), (1, "Temperature: 21".toList), (2, "C".toList)] ∧
    (∀ w ∈ (MainC.oled_run MainC.oled_init
        [("A".toList, "B".toList, "C".toList), ("A".toList, "B".toList, "C".toList),
         ("A".toList, "Temperature: 21 C".toList, "C".toList)]).2, w.2.length ≤ 15) :=
  ⟨by decide,
   (C9_cache_mirrors_last_write.1
      [("A".toList, "B".toList, "C".toList), ("A".toList, "B".toList, "C".toList),
       ("A".toList, "Temperature: 21 C".toList, "C".toList)]).2.1⟩

/-! ## Traces -/

theorem displayWrites_append (a b : List Event) :
    displayWrites (a ++ b) = displayWrites a ++ displayWrites b := by
  induction a with
  | nil => rfl
  | cons e es ih => cases e <;> simp [displayWrites, ih]

theorem pinWrites_append (p : Nat) (a b : List Event) :
    pinWrites p (a ++ b) = pinWrites p a ++ pinWrites p b := by
  induction a with
  | nil => rfl
  | cons e es ih =>
    cases e with
    | gpio_set_level q l => by_cases h : q = p <;> simp [pinWrites, ih, h]
    | vTaskDelay ms => simp [pinWrites, ih]
    | ssd1306_display_text page text inv => simp [pinWrites, ih]

theorem button_is_pressed_displayWrites (b : MainC.Button) (l : Nat) :
    displayWrites (MainC.button_is_pressed b l).2.2 = [] := by
  unfold MainC.button_is_pressed
  cases h1 : (l == 0) <;> cases h2 : b.lastState <;> simp [displayWrites]

theorem button_is_pressed_pinWrites (p : Nat) (b : MainC.Button) (l : Nat) :
    pinWrites p (MainC.button_is_pressed b l).2.2 = [] := by
  unfold MainC.button_is_pressed
  cases h1 : (l == 0) <;> cases h2 : b.lastState <;> simp [pinWrites]

theorem oled_update_pinWrites (p : Nat) (d : MainC.OLED_Display) (g y r : List Char) :
    pinWrites p (MainC.oled_update d g y r).2 = [] := by
  unfold MainC.oled_update
  split <;> simp [pinWrites]

theorem update_oled_pinWrites (p : Nat) (G : MainCpp.Globals) (g y r : List Char) :
    pinWrites p (MainCpp.update_oled G g y r).2 = [] := by
  unfold MainCpp.update_oled
  split <;> simp [pinWrites]

/-- The display writes of one loop iteration of main.c are those of its
`oled_update` call. -/
theorem loop_displayWrites (s : MainC.AppState) (x : MainC.Levels) :
    displayWrites (MainC.app_main_loop s x).trace =
      displayWrites (MainC.oled_update s.display (MainC.app_main_loop s x).green_status
        (MainC.app_main_loop s x).yellow_status (MainC.app_main_loop s x).red_status).2 := by
  simp only [MainC.app_main_loop, displayWrites_append, button_is_pressed_displayWrites]
  cases (MainC.button_is_pressed s.greenButton x.green).1 <;>
  cases (MainC.button_is_pressed s.yellowButton x.yellow).1 <;>
  cases (MainC.button_is_pressed s.redButton x.red).1 <;>
  cases (MainC.button_is_pressed s.onOffButton x.onOff).1 <;>
  cases s.leds_on <;>
  simp [displayWrites, MainC.led_toggle, MainC.led_off]

/-! ## main.c: one loop iteration -/

theorem loop_last_pinWrites (s : MainC.AppState) (x : MainC.Levels) :
    (pinWrites MainC.GPIO_NUM_2 (MainC.app_main_loop s x).trace).getLast? =
        some (if (MainC.app_main_loop s x).state.leds_on &&
          (MainC.app_main_loop s x).state.greenLED.status then 1 else 0) ∧
      (pinWrites MainC.GPIO_NUM_19 (MainC.app_main_loop s x).trace).getLast? =
        some (if (MainC.app_main_loop s x).state.leds_on &&
          (MainC.app_main_loop s x).state.yellowLED.status then 1 else 0) ∧
      (pinWrites MainC.GPIO_NUM_18 (MainC.app_main_loop s x).trace).getLast? =
        some (if (MainC.app_main_loop s x).state.leds_on &&
          (MainC.app_main_loop s x).state.redLED.status then 1 else 0) := by
  simp only [MainC.app_main_loop, pinWrites_append, button_is_pressed_pinWrites,
    oled_update_pinWrites, List.append_nil]
  simp [pinWrites, MainC.led_is_on, MainC.GPIO_NUM_2, MainC.GPIO_NUM_19, MainC.GPIO_NUM_18]

theorem loop_status_strings (s : MainC.AppState) (x : MainC.Levels) :
    (MainC.app_main_loop s x).green_status =
        (if (MainC.app_main_loop s x).state.leds_on &&
          (MainC.app_main_loop s x).state.greenLED.status
        then "Green LED: ON".toList else "Green LED: OFF".toList) ∧
      (MainC.app_main_loop s x).yellow_status =
        (if (MainC.app_main_loop s x).state.leds_on &&
          (MainC.app_main_loop s x).state.yellowLED.status
        then "Yellow LED: ON".toList else "Yellow LED: OFF".toList) ∧
      (MainC.app_main_loop s x).red_status =
        (if (MainC.app_main_loop s x).state.leds_on &&
          (MainC.app_main_loop s x).state.redLED.status
        then "Red LED: ON".toList else "Red LED: OFF".toList) :=
  ⟨rfl, rfl, rfl⟩

/-- C5: at the end of every loop iteration of main.c the level last written to
each LED pin is (leds_on AND status) of that LED, the status string composed
for it reads ON exactly in that case and OFF otherwise, and with leds_on false
the three pins end low and the three strings read OFF. -/
theorem C5_tick_ends_with_effective_levels (s : MainC.AppState) (x : MainC.Levels) :
    ((MainC.app_main_loop s x).levels =
        (some (if (MainC.app_main_loop s x).state.leds_on &&
            (MainC.app_main_loop s x).state.greenLED.status then 1 else 0),
         some (if (MainC.app_main_loop s x).state.leds_on &&
            (MainC.app_main_loop s x).state.yellowLED.status then 1 else 0),
         some (if (MainC.app_main_loop s x).state.leds_on &&
            (MainC.app_main_loop s x).state.redLED.status then 1 else 0))) ∧
    ((MainC.app_main_loop s x).green_status =
        (if (MainC.app_main_loop s x).state.leds_on &&
            (MainC.app_main_loop s x).state.greenLED.status
          then "Green LED: ON".toList else "Green LED: OFF".toList) ∧
      (MainC.app_main_loop s x).yellow_status =
        (if (MainC.app_main_loop s x).state.leds_on &&
            (MainC.app_main_loop s x).state.yellowLED.status
          then "Yellow LED: ON".toList else "Yellow LED: OFF".toList) ∧
      (MainC.app_main_loop s x).red_status =
        (if (MainC.app_main_loop s x).state.leds_on &&
            (MainC.app_main_loop s x).state.redLED.status
          then "Red LED: ON".toList else "Red LED: OFF".toList)) ∧
    ((MainC.app_main_loop s x).state.leds_on = false →
      (MainC.app_main_loop s x).levels = (some 0, some 0, some 0) ∧
      (MainC.app_main_loop s x).green_status = "Green LED: OFF".toList ∧
      (MainC.app_main_loop s x).yellow_status = "Yellow LED: OFF".toList ∧
      (MainC.app_main_loop s x).red_status = "Red LED: OFF".toList) := by
  obtain ⟨p1, p2, p3⟩ := loop_last_pinWrites s x
  obtain ⟨q1, q2, q3⟩ := loop_status_strings s x
  refine ⟨?_, ⟨q1, q2, q3⟩, ?_⟩
  · simp only [MainC.LoopResult.levels, p1, p2, p3]
  · intro hoff
    rw [hoff] at p1 p2 p3 q1 q2 q3
    refine ⟨?_, ?_, ?_, ?_⟩
    · simp only [MainC.LoopResult.levels, p1, p2, p3]
      simp
    · simpa using q1
    · simpa using q2
    · simpa using q3

/-- C5 at a concrete input: green LED on, then the master button is pressed. -/
theorem C5_tick_ends_with_effective_levels_witness :
    (MainC.app_main_loop
        (MainC.app_main_loop MainC.app_main_init
          { green := 0, yellow := 1, red := 1, onOff := 1 }).state
        { green := 1, yellow := 1, red := 1, onOff := 0 }).levels = (some 0, some 0, some 0) ∧
      (MainC.app_main_loop
        (MainC.app_main_loop MainC.app_main_init
          { green := 0, yellow := 1, red := 1, onOff := 1 }).state
        { green := 1, yellow := 1, red := 1, onOff := 0 }).green_status =
          "Green LED: OFF".toList :=
  ⟨((C5_tick_ends_with_effective_levels
      (MainC.app_main_loop MainC.app_main_init
        { green := 0, yellow := 1, red := 1, onOff := 1 }).state
      { green := 1, yellow := 1, red := 1, onOff := 0 }).2.2 (by decide)).1,
   ((C5_tick_ends_with_effective_levels
      (MainC.app_main_loop MainC.app_main_init
        { green := 0, yellow := 1, red := 1, onOff := 1 }).state
      { green := 1, yellow := 1, red := 1, onOff := 0 }).2.2 (by decide)).2.1⟩

/-- C7 at a reachable state: after a master press from the initial state
(leds_on false), a green press makes `led_toggle` write level 1 to pin 2 while
leds_on is false before and after the iteration; the loop writes 0 afterwards. -/
theorem C7_toggle_while_disabled_drives_pin_high :
    (MainC.app_main_loop MainC.app_main_init
        { green := 1, yellow := 1, red := 1, onOff := 0 }).state.leds_on = false ∧
    (MainC.app_main_loop
        (MainC.app_main_loop MainC.app_main_init
          { green := 1, yellow := 1, red := 1, onOff := 0 }).state
        { green := 0, yellow := 1, red := 1, onOff := 1 }).state.leds_on = false ∧
    (MainC.app_main_loop
        (MainC.app_main_loop MainC.app_main_init
          { green := 1, yellow := 1, red := 1, onOff := 0 }).state
        { green := 0, yellow := 1, red := 1, onOff := 1 }).state.greenLED.status = true ∧
    pinWrites MainC.GPIO_NUM_2 (MainC.app_main_loop
        (MainC.app_main_loop MainC.app_main_init
          { green := 1, yellow := 1, red := 1, onOff := 0 }).state
        { green := 0, yellow := 1, red := 1, onOff := 1 }).trace = [1, 0] := by
  decide

/-! ## main.c: the master switch -/

/-- The flags after one loop iteration of main.c, in terms of its press events. -/
theorem loop_state_fields (s : MainC.AppState) (x : MainC.Levels) :
    (MainC.app_main_loop s x).state.leds_on =
        (if (MainC.pressEvents s x).2.2.2 then !s.leds_on else s.leds_on) ∧
      (MainC.app_main_loop s x).state.greenLED.status =
        (if (MainC.pressEvents s x).2.2.2 && s.leds_on then false
          else if (MainC.pressEvents s x).1 then !s.greenLED.status else s.greenLED.status) ∧
      (MainC.app_main_loop s x).state.yellowLED.status =
        (if (MainC.pressEvents s x).2.2.2 && s.leds_on then false
          else if (MainC.pressEvents s x).2.1 then !s.yellowLED.status
          else s.yellowLED.status) ∧
      (MainC.app_main_loop s x).state.redLED.status =
        (if (MainC.pressEvents s x).2.2.2 && s.leds_on then false
          else if (MainC.pressEvents s x).2.2.1 then !s.redLED.status else s.redLED.status) := by
  by_cases h1 : (MainC.button_is_pressed s.greenButton x.green).1 = true <;>
  by_cases h2 : (MainC.button_is_pressed s.yellowButton x.yellow).1 = true <;>
  by_cases h3 : (MainC.button_is_pressed s.redButton x.red).1 = true <;>
  by_cases h4 : (MainC.button_is_pressed s.onOffButton x.onOff).1 = true <;>
  by_cases h5 : s.leds_on = true <;>
  simp [MainC.app_main_loop, MainC.pressEvents, MainC.led_toggle, MainC.led_off,
    h1, h2, h3, h4, h5]

theorem quiet_run_flags (s : MainC.AppState) (mid : List MainC.Levels)
    (h : MainC.quiet s mid = true) :
    (MainC.app_main_run s mid).leds_on = s.leds_on ∧
      (MainC.app_main_run s mid).greenLED.status = s.greenLED.status ∧
      (MainC.app_main_run s mid).yellowLED.status = s.yellowLED.status ∧
      (MainC.app_main_run s mid).redLED.status = s.redLED.status := by
  induction mid generalizing s with
  | nil => simp [MainC.app_main_run]
  | cons x xs ih =>
    simp only [MainC.quiet, Bool.and_eq_true, beq_iff_eq] at h
    obtain ⟨he, hq⟩ := h
    obtain ⟨f0, f1, f2, f3⟩ := loop_state_fields s x
    rw [he] at f0 f1 f2 f3
    obtain ⟨i0, i1, i2, i3⟩ := ih _ hq
    simp only [MainC.app_main_run, List.foldl_cons] at i0 i1 i2 i3 ⊢
    rw [i0, i1, i2, i3, f0, f1, f2, f3]
    simp

/-- C8: in main.c, from a state with leds_on true, an iteration in which the
master button emits a press event ends with leds_on false, the three status
flags false and the three pins low, whatever the LED buttons do; and after any
iterations without press event, an iteration in which only the master button
emits a press event ends with leds_on true and the three effective levels and
pins still low. -/
theorem C8_master_press_clears_pattern :
    (∀ (s : MainC.AppState) (x : MainC.Levels),
      s.leds_on = true → (MainC.pressEvents s x).2.2.2 = true →
      (MainC.app_main_loop s x).state.leds_on = false ∧
      (MainC.app_main_loop s x).state.greenLED.status = false ∧
      (MainC.app_main_loop s x).state.yellowLED.status = false ∧
      (MainC.app_main_loop s x).state.redLED.status = false ∧
      (MainC.app_main_loop s x).levels = (some 0, some 0, some 0)) ∧
    (∀ (s : MainC.AppState) (x y : MainC.Levels) (mid : List MainC.Levels),
      s.leds_on = true → (MainC.pressEvents s x).2.2.2 = true →
      MainC.quiet (MainC.app_main_loop s x).state mid = true →
      MainC.pressEvents (MainC.app_main_run (MainC.app_main_loop s x).state mid) y =
        (false, false, false, true) →
      (MainC.app_main_loop
          (MainC.app_main_run (MainC.app_main_loop s x).state mid) y).state.leds_on = true ∧
      MainC.effective (MainC.app_main_loop
          (MainC.app_main_run (MainC.app_main_loop s x).state mid) y).state =
        (false, false, false) ∧
      (MainC.app_main_loop
          (MainC.app_main_run (MainC.app_main_loop s x).state mid) y).levels =
        (some 0, some 0, some 0)) := by
  have part1 : ∀ (s : MainC.AppState) (x : MainC.Levels),
      s.leds_on = true → (MainC.pressEvents s x).2.2.2 = true →
      (MainC.app_main_loop s x).state.leds_on = false ∧
      (MainC.app_main_loop s x).state.greenLED.status = false ∧
      (MainC.app_main_loop s x).state.yellowLED.status = false ∧
      (MainC.app_main_loop s x).state.redLED.status = false ∧
      (MainC.app_main_loop s x).levels = (some 0, some 0, some 0) := by
    intro s x hs hp
    obtain ⟨f0, f1, f2, f3⟩ := loop_state_fields s x
    obtain ⟨p1, p2, p3⟩ := loop_last_pinWrites s x
    rw [hp, hs] at f0 f1 f2 f3
    simp only [Bool.not_true, Bool.and_self, if_true] at f0 f1 f2 f3
    rw [f0] at p1 p2 p3
    refine ⟨f0, f1, f2, f3, ?_⟩
    simp only [MainC.LoopResult.levels, p1, p2, p3]
    simp
  refine ⟨part1, ?_⟩
  intro s x y mid hs hp hq hy
  obtain ⟨a0, a1, a2, a3, -⟩ := part1 s x hs hp
  obtain ⟨b0, b1, b2, b3⟩ := quiet_run_flags _ mid hq
  rw [a0] at b0
  rw [a1] at b1
  rw [a2] at b2
  rw [a3] at b3
  obtain ⟨f0, f1, f2, f3⟩ :=
    loop_state_fields (MainC.app_main_run (MainC.app_main_loop s x).state mid) y
  obtain ⟨p1, p2, p3⟩ :=
    loop_last_pinWrites (MainC.app_main_run (MainC.app_main_loop s x).state mid) y
  rw [hy, b0] at f0 f1 f2 f3
  rw [b1] at f1
  rw [b2] at f2
  rw [b3] at f3
  simp only [Bool.not_false, Bool.and_false, if_true] at f0 f1 f2 f3
  simp only [Bool.false_eq_true, if_false] at f1 f2 f3
  rw [f0, f1] at p1
  rw [f0, f2] at p2
  rw [f0, f3] at p3
  refine ⟨f0, ?_, ?_⟩
  · simp only [MainC.effective, MainC.led_is_on, f0, f1, f2, f3]
    simp
  · simp only [MainC.LoopResult.levels, p1, p2, p3]
    simp

/-- C8 at a concrete input: green and master pressed together from the initial
state, one iteration with all buttons released, then the master alone. -/
theorem C8_master_press_clears_pattern_witness :
    (MainC.app_main_loop
        (MainC.app_main_run
          (MainC.app_main_loop MainC.app_main_init
            { green := 0, yellow := 1, red := 1, onOff := 0 }).state
          [{ green := 1, yellow := 1, red := 1, onOff := 1 }])
        { green := 1, yellow := 1, red := 1, onOff := 0 }).state.leds_on = true ∧
      MainC.effective (MainC.app_main_loop
        (MainC.app_main_run
          (MainC.app_main_loop MainC.app_main_init
            { green := 0, yellow := 1, red := 1, onOff := 0 }).state
          [{ green := 1, yellow := 1, red := 1, onOff := 1 }])
        { green := 1, yellow := 1, red := 1, onOff := 0 }).state = (false, false, false) ∧
      (MainC.app_main_loop
        (MainC.app_main_run
          (MainC.app_main_loop MainC.app_main_init
            { green := 0, yellow := 1, red := 1, onOff := 0 }).state
          [{ green := 1, yellow := 1, red := 1, onOff := 1 }])
        { green := 1, yellow := 1, red := 1, onOff := 0 }).levels = (some 0, some 0, some 0) :=
  C8_master_press_clears_pattern.2 MainC.app_main_init
    { green := 0, yellow := 1, red := 1, onOff := 0 }
    { green := 1, yellow := 1, red := 1, onOff := 0 }
    [{ green := 1, yellow := 1, red := 1, onOff := 1 }]
    (by decide) (by decide) (by decide) (by decide)

/-! ## main.c: display writes follow the effective levels -/

theorem oled_update_writes_iff (d : MainC.OLED_Display) (g y r : List Char) :
    displayWrites (MainC.oled_update d g y r).2 ≠ [] ↔
      (cstr g ≠ cstr d.last_green_status ∨ cstr y ≠ cstr d.last_yellow_status ∨
        cstr r ≠ cstr d.last_red_status) := by
  by_cases h : cstr g ≠ cstr d.last_green_status ∨ cstr y ≠ cstr d.last_yellow_status ∨
      cstr r ≠ cstr d.last_red_status
  · rw [(oled_update_changed d g y r h).1]
    simp only [displayWrites, ne_eq, reduceCtorEq, not_false_eq_true, true_iff]
    exact h
  · rw [oled_update_same d g y r (by tauto) (by tauto) (by tauto)]
    simp only [displayWrites, ne_eq, not_true_eq_false, false_iff]
    exact h

theorem oled_update_cache_short (d : MainC.OLED_Display) (g y r : List Char)
    (hg : strlen g ≤ 15) (hy : strlen y ≤ 15) (hr : strlen r ≤ 15) :
    cstr (MainC.oled_update d g y r).1.last_green_status = cstr g ∧
      cstr (MainC.oled_update d g y r).1.last_yellow_status = cstr y ∧
      cstr (MainC.oled_update d g y r).1.last_red_status = cstr r := by
  unfold strlen at hg hy hr
  by_cases h : cstr g ≠ cstr d.last_green_status ∨ cstr y ≠ cstr d.last_yellow_status ∨
      cstr r ≠ cstr d.last_red_status
  · obtain ⟨-, h1, h2, h3⟩ := oled_update_changed d g y r h
    rw [h1, h2, h3, List.take_of_length_le hg, List.take_of_length_le hy,
      List.take_of_length_le hr]
    exact ⟨rfl, rfl, rfl⟩
  · rw [oled_update_same d g y r (by tauto) (by tauto) (by tauto)]
    exact ⟨by tauto, by tauto, by tauto⟩

/-- Every status string the loop composes fits the 15-character cache line. -/
theorem status_strings_short (a b c : Bool) :
    strlen (if a = true then "Green LED: ON".toList else "Green LED: OFF".toList) ≤ 15 ∧
      strlen (if b = true then "Yellow LED: ON".toList else "Yellow LED: OFF".toList) ≤ 15 ∧
      strlen (if c = true then "Red LED: ON".toList else "Red LED: OFF".toList) ≤ 15 := by
  cases a <;> cases b <;> cases c <;> decide

theorem status_strings_differ_iff (a b c a1 b1 c1 : Bool) :
    (cstr (if a1 = true then "Green LED: ON".toList else "Green LED: OFF".toList) ≠
        cstr (if a = true then "Green LED: ON".toList else "Green LED: OFF".toList) ∨
      cstr (if b1 = true then "Yellow LED: ON".toList else "Yellow LED: OFF".toList) ≠
        cstr (if b = true then "Yellow LED: ON".toList else "Yellow LED: OFF".toList) ∨
      cstr (if c1 = true then "Red LED: ON".toList else "Red LED: OFF".toList) ≠
        cstr (if c = true then "Red LED: ON".toList else "Red LED: OFF".toList)) ↔
      (a1, b1, c1) ≠ (a, b, c) := by
  cases a <;> cases b <;> cases c <;> cases a1 <;> cases b1 <;> cases c1 <;> decide

/-- After any loop iteration of main.c the cache holds the three status
strings of the effective levels. -/
theorem loop_cache_inv (s : MainC.AppState) (x : MainC.Levels) :
    cstr (MainC.app_main_loop s x).state.display.last_green_status =
        cstr (if (MainC.effective (MainC.app_main_loop s x).state).1 = true
          then "Green LED: ON".toList else "Green LED: OFF".toList) ∧
      cstr (MainC.app_main_loop s x).state.display.last_yellow_status =
        cstr (if (MainC.effective (MainC.app_main_loop s x).state).2.1 = true
          then "Yellow LED: ON".toList else "Yellow LED: OFF".toList) ∧
      cstr (MainC.app_main_loop s x).state.display.last_red_status =
        cstr (if (MainC.effective (MainC.app_main_loop s x).state).2.2 = true
          then "Red LED: ON".toList else "Red LED: OFF".toList) := by
  obtain ⟨h1, h2, h3⟩ := status_strings_short
    (MainC.effective (MainC.app_main_loop s x).state).1
    (MainC.effective (MainC.app_main_loop s x).state).2.1
    (MainC.effective (MainC.app_main_loop s x).state).2.2
  exact oled_update_cache_short s.display _ _ _ h1 h2 h3

theorem app_main_run_concat (s : MainC.AppState) (ins : List MainC.Levels) (x : MainC.Levels) :
    MainC.app_main_run s (ins ++ [x]) =
      (MainC.app_main_loop (MainC.app_main_run s ins) x).state := by
  simp [MainC.app_main_run, List.foldl_append]

/-- C4: in main.c, started from the initial state, every loop iteration after
the first performs display writes exactly when the triple of effective levels
at its end differs from the triple at the end of the previous iteration. -/
theorem C4_display_written_iff_levels_change (ins : List MainC.Levels) (x : MainC.Levels)
    (h : ins ≠ []) :
    displayWrites (MainC.app_main_loop (MainC.app_main_run MainC.app_main_init ins) x).trace ≠ [] ↔
      MainC.effective (MainC.app_main_loop (MainC.app_main_run MainC.app_main_init ins) x).state ≠
        MainC.effective (MainC.app_main_run MainC.app_main_init ins) := by
  have hsplit : ins = ins.dropLast ++ [ins.getLast h] := (List.dropLast_append_getLast h).symm
  have hrun := app_main_run_concat MainC.app_main_init ins.dropLast (ins.getLast h)
  rw [← hsplit] at hrun
  obtain ⟨i1, i2, i3⟩ :=
    loop_cache_inv (MainC.app_main_run MainC.app_main_init ins.dropLast) (ins.getLast h)
  rw [← hrun] at i1 i2 i3
  rw [loop_displayWrites, oled_update_writes_iff, i1, i2, i3]
  exact status_strings_differ_iff _ _ _ _ _ _

/-- C4 at a concrete input: after a first iteration with all buttons released,
an iteration with the green button pressed changes the levels and writes. -/
theorem C4_display_written_iff_levels_change_witness :
    MainC.effective (MainC.app_main_loop
        (MainC.app_main_run MainC.app_main_init
          [{ green := 1, yellow := 1, red := 1, onOff := 1 }])
        { green := 0, yellow := 1, red := 1, onOff := 1 }).state ≠
        MainC.effective (MainC.app_main_run MainC.app_main_init
          [{ green := 1, yellow := 1, red := 1, onOff := 1 }]) ∧
      displayWrites (MainC.app_main_loop
        (MainC.app_main_run MainC.app_main_init
          [{ green := 1, yellow := 1, red := 1, onOff := 1 }])
        { green := 0, yellow := 1, red := 1, onOff := 1 }).trace ≠ [] :=
  ⟨by decide,
   (C4_display_written_iff_levels_change [{ green := 1, yellow := 1, red := 1, onOff := 1 }]
      { green := 0, yellow := 1, red := 1, onOff := 1 } (by decide)).2 (by decide)⟩

/-! ## main.cpp: control loop -/

theorem cpp_loop_levels (s : MainCpp.AppState) (x : MainCpp.Levels) :
    (MainCpp.app_main_loop s x).levels =
      (some (if (MainCpp.app_main_loop s x).state.leds_on &&
          (MainCpp.app_main_loop s x).state.green_led_on then 1 else 0),
       some (if (MainCpp.app_main_loop s x).state.leds_on &&
          (MainCpp.app_main_loop s x).state.yellow_led_on then 1 else 0),
       some (if (MainCpp.app_main_loop s x).state.leds_on &&
          (MainCpp.app_main_loop s x).state.red_led_on then 1 else 0)) := by
  simp only [MainCpp.LoopResult.levels, MainCpp.app_main_loop, pinWrites_append,
    update_oled_pinWrites, List.append_nil]
  by_cases h1 : (x.green == 0) = true <;> by_cases h2 : (x.yellow == 0) = true <;>
  by_cases h3 : (x.red == 0) = true <;> by_cases h4 : (x.onOff == 0) = true <;>
  simp [pinWrites, MainCpp.GREEN_LED, MainCpp.YELLOW_LED, MainCpp.RED_LED, h1, h2, h3, h4]

theorem cpp_loop_strings (s : MainCpp.AppState) (x : MainCpp.Levels) :
    (MainCpp.app_main_loop s x).strings =
      ((if (MainCpp.app_main_loop s x).state.leds_on &&
          (MainCpp.app_main_loop s x).state.green_led_on
        then "Green LED: ON".toList else "Green LED: OFF".toList),
       (if (MainCpp.app_main_loop s x).state.leds_on &&
          (MainCpp.app_main_loop s x).state.yellow_led_on
        then "Yellow LED: ON".toList else "Yellow LED: OFF".toList),
       (if (MainCpp.app_main_loop s x).state.leds_on &&
          (MainCpp.app_main_loop s x).state.red_led_on
        then "Red LED: ON".toList else "Red LED: OFF".toList)) :=
  rfl

/-- The flags after one loop iteration of main.cpp. -/
theorem cpp_loop_flags (s : MainCpp.AppState) (x : MainCpp.Levels) :
    (MainCpp.app_main_loop s x).state.green_led_on =
        (if x.green == 0 then !s.green_led_on else s.green_led_on) ∧
      (MainCpp.app_main_loop s x).state.yellow_led_on =
        (if x.yellow == 0 then !s.yellow_led_on else s.yellow_led_on) ∧
      (MainCpp.app_main_loop s x).state.red_led_on =
        (if x.red == 0 then !s.red_led_on else s.red_led_on) ∧
      (MainCpp.app_main_loop s x).state.leds_on =
        (if x.onOff == 0 then !s.leds_on else s.leds_on) :=
  ⟨rfl, rfl, rfl, rfl⟩

theorem cpp_idle_run_flags (s : MainCpp.AppState) (mid : List MainCpp.Levels)
    (h : ∀ m ∈ mid, m.idle = true) :
    (MainCpp.app_main_run s mid).green_led_on = s.green_led_on ∧
      (MainCpp.app_main_run s mid).yellow_led_on = s.yellow_led_on ∧
      (MainCpp.app_main_run s mid).red_led_on = s.red_led_on ∧
      (MainCpp.app_main_run s mid).leds_on = s.leds_on := by
  induction mid generalizing s with
  | nil => simp [MainCpp.app_main_run]
  | cons x xs ih =>
    have hx := h x (List.mem_cons_self x xs)
    simp only [MainCpp.Levels.idle, Bool.and_eq_true, bne_iff_ne, ne_eq] at hx
    obtain ⟨⟨⟨h1, h2⟩, h3⟩, h4⟩ := hx
    obtain ⟨f1, f2, f3, f4⟩ := cpp_loop_flags s x
    obtain ⟨i1, i2, i3, i4⟩ := ih (MainCpp.app_main_loop s x).state
      (fun m hm => h m (List.mem_cons_of_mem x hm))
    simp only [MainCpp.app_main_run, List.foldl_cons] at i1 i2 i3 i4 ⊢
    rw [i1, i2, i3, i4, f1, f2, f3, f4]
    simp [h1, h2, h3, h4]

theorem cpp_onlyOnOff_flags (s : MainCpp.AppState) (x : MainCpp.Levels)
    (h : x.onlyOnOff = true) :
    (MainCpp.app_main_loop s x).state.green_led_on = s.green_led_on ∧
      (MainCpp.app_main_loop s x).state.yellow_led_on = s.yellow_led_on ∧
      (MainCpp.app_main_loop s x).state.red_led_on = s.red_led_on ∧
      (MainCpp.app_main_loop s x).state.leds_on = !s.leds_on := by
  simp only [MainCpp.Levels.onlyOnOff, Bool.and_eq_true, bne_iff_ne, ne_eq, beq_iff_eq] at h
  obtain ⟨⟨⟨h1, h2⟩, h3⟩, h4⟩ := h
  obtain ⟨f1, f2, f3, f4⟩ := cpp_loop_flags s x
  rw [f1, f2, f3, f4]
  simp [h1, h2, h3, h4]

/-- C6: in main.cpp, from a state with leds_on true, an iteration in which only
the master-enable button reads low ends with the three LED pins written low,
the three status strings reading OFF and the three LED flags unchanged; and
when this state is the end of an iteration, then after further iterations in
which no button reads low, the next iteration in which only the master-enable
button reads low ends with the pin levels, the status strings and the flags
that iteration before the disable ended with. -/
theorem C6_disable_then_enable_restores :
    (∀ (s : MainCpp.AppState) (x : MainCpp.Levels),
      s.leds_on = true → x.onlyOnOff = true →
      (MainCpp.app_main_loop s x).levels = (some 0, some 0, some 0) ∧
      (MainCpp.app_main_loop s x).strings =
        ("Green LED: OFF".toList, "Yellow LED: OFF".toList, "Red LED: OFF".toList) ∧
      (MainCpp.app_main_loop s x).state.green_led_on = s.green_led_on ∧
      (MainCpp.app_main_loop s x).state.yellow_led_on = s.yellow_led_on ∧
      (MainCpp.app_main_loop s x).state.red_led_on = s.red_led_on) ∧
    (∀ (s0 : MainCpp.AppState) (x0 x y : MainCpp.Levels) (mid : List MainCpp.Levels),
      (MainCpp.app_main_loop s0 x0).state.leds_on = true → x.onlyOnOff = true →
      (∀ m ∈ mid, m.idle = true) → y.onlyOnOff = true →
      (MainCpp.app_main_loop (MainCpp.app_main_run
          (MainCpp.app_main_loop (MainCpp.app_main_loop s0 x0).state x).state mid) y).levels =
        (MainCpp.app_main_loop s0 x0).levels ∧
      (MainCpp.app_main_loop (MainCpp.app_main_run
          (MainCpp.app_main_loop (MainCpp.app_main_loop s0 x0).state x).state mid) y).strings =
        (MainCpp.app_main_loop s0 x0).strings ∧
      (MainCpp.app_main_loop (MainCpp.app_main_run
          (MainCpp.app_main_loop (MainCpp.app_main_loop s0 x0).state x).state
            mid) y).state.green_led_on =
        (MainCpp.app_main_loop s0 x0).state.green_led_on ∧
      (MainCpp.app_main_loop (MainCpp.app_main_run
          (MainCpp.app_main_loop (MainCpp.app_main_loop s0 x0).state x).state
            mid) y).state.yellow_led_on =
        (MainCpp.app_main_loop s0 x0).state.yellow_led_on ∧
      (MainCpp.app_main_loop (MainCpp.app_main_run
          (MainCpp.app_main_loop (MainCpp.app_main_loop s0 x0).state x).state
            mid) y).state.red_led_on =
        (MainCpp.app_main_loop s0 x0).state.red_led_on) := by
  constructor
  · intro s x hs hx
    obtain ⟨f1, f2, f3, f4⟩ := cpp_onlyOnOff_flags s x hx
    rw [hs] at f4
    refine ⟨?_, ?_, f1, f2, f3⟩
    · rw [cpp_loop_levels, f4]
      simp
    · rw [cpp_loop_strings, f4]
      simp
  · intro s0 x0 x y mid hs hx hmid hy
    obtain ⟨a1, a2, a3, a4⟩ := cpp_onlyOnOff_flags (MainCpp.app_main_loop s0 x0).state x hx
    obtain ⟨b1, b2, b3, b4⟩ :=
      cpp_idle_run_flags (MainCpp.app_main_loop (MainCpp.app_main_loop s0 x0).state x).state
        mid hmid
    obtain ⟨c1, c2, c3, c4⟩ := cpp_onlyOnOff_flags
      (MainCpp.app_main_run
        (MainCpp.app_main_loop (MainCpp.app_main_loop s0 x0).state x).state mid) y hy
    rw [b1, a1] at c1
    rw [b2, a2] at c2
    rw [b3, a3] at c3
    rw [b4, a4, hs] at c4
    refine ⟨?_, ?_, c1, c2, c3⟩
    · rw [cpp_loop_levels, cpp_loop_levels s0 x0, c1, c2, c3, c4, hs]
      rfl
    · rw [cpp_loop_strings, cpp_loop_strings s0 x0, c1, c2, c3, c4, hs]
      rfl

/-- C6 at a concrete input: green switched on, master low (disable), one
iteration with no button low, master low again (enable). -/
theorem C6_disable_then_enable_restores_witness :
    (MainCpp.app_main_loop MainCpp.app_main_init
        { green := 0, yellow := 1, red := 1, onOff := 1 }).levels = (some 1, some 0, some 0) ∧
    (MainCpp.app_main_loop
        (MainCpp.app_main_loop MainCpp.app_main_init
          { green := 0, yellow := 1, red := 1, onOff := 1 }).state
        { green := 1, yellow := 1, red := 1, onOff := 0 }).levels = (some 0, some 0, some 0) ∧
    (MainCpp.app_main_loop (MainCpp.app_main_run
        (MainCpp.app_main_loop (MainCpp.app_main_loop MainCpp.app_main_init
          { green := 0, yellow := 1, red := 1, onOff := 1 }).state
          { green := 1, yellow := 1, red := 1, onOff := 0 }).state
        [{ green := 1, yellow := 1, red := 1, onOff := 1 }])
        { green := 1, yellow := 1, red := 1, onOff := 0 }).levels =
      (MainCpp.app_main_loop MainCpp.app_main_init
        { green := 0, yellow := 1, red := 1, onOff := 1 }).levels :=
  ⟨by decide,
   (C6_disable_then_enable_restores.1
      (MainCpp.app_main_loop MainCpp.app_main_init
        { green := 0, yellow := 1, red := 1, onOff := 1 }).state
      { green := 1, yellow := 1, red := 1, onOff := 0 } (by decide) (by decide)).1,
   (C6_disable_then_enable_restores.2 MainCpp.app_main_init
      { green := 0, yellow := 1, red := 1, onOff := 1 }
      { green := 1, yellow := 1, red := 1, onOff := 0 }
      { green := 1, yellow := 1, red := 1, onOff := 0 }
      [{ green := 1, yellow := 1, red := 1, onOff := 1 }]
      (by decide) (by decide) (by decide) (by decide)).1⟩

theorem cpp_run_cons (s : MainCpp.AppState) (x : MainCpp.Levels) (xs : List MainCpp.Levels) :
    MainCpp.app_main_run s (x :: xs) =
      MainCpp.app_main_run (MainCpp.app_main_loop s x).state xs := rfl

/-- C10: main.cpp is level-triggered. An iteration in which a button reads low
flips that button's flag, so over k consecutive iterations in which it reads
low the flag is flipped k times: it ends at its original value when k is even
and inverted when k is odd (green, yellow, red LED button and master-enable
button). -/
theorem C10_level_triggered_toggle :
    (∀ (s : MainCpp.AppState) (x : MainCpp.Levels),
      (x.green = 0 → (MainCpp.app_main_loop s x).state.green_led_on = !s.green_led_on) ∧
      (x.yellow = 0 → (MainCpp.app_main_loop s x).state.yellow_led_on = !s.yellow_led_on) ∧
      (x.red = 0 → (MainCpp.app_main_loop s x).state.red_led_on = !s.red_led_on) ∧
      (x.onOff = 0 → (MainCpp.app_main_loop s x).state.leds_on = !s.leds_on)) ∧
    (∀ (s : MainCpp.AppState) (ins : List MainCpp.Levels),
      ((∀ x ∈ ins, x.green = 0) →
        (MainCpp.app_main_run s ins).green_led_on =
          (if ins.length % 2 = 0 then s.green_led_on else !s.green_led_on)) ∧
      ((∀ x ∈ ins, x.yellow = 0) →
        (MainCpp.app_main_run s ins).yellow_led_on =
          (if ins.length % 2 = 0 then s.yellow_led_on else !s.yellow_led_on)) ∧
      ((∀ x ∈ ins, x.red = 0) →
        (MainCpp.app_main_run s ins).red_led_on =
          (if ins.length % 2 = 0 then s.red_led_on else !s.red_led_on)) ∧
      ((∀ x ∈ ins, x.onOff = 0) →
        (MainCpp.app_main_run s ins).leds_on =
          (if ins.length % 2 = 0 then s.leds_on else !s.leds_on))) := by
  have step : ∀ (s : MainCpp.AppState) (x : MainCpp.Levels),
      (x.green = 0 → (MainCpp.app_main_loop s x).state.green_led_on = !s.green_led_on) ∧
      (x.yellow = 0 → (MainCpp.app_main_loop s x).state.yellow_led_on = !s.yellow_led_on) ∧
      (x.red = 0 → (MainCpp.app_main_loop s x).state.red_led_on = !s.red_led_on) ∧
      (x.onOff = 0 → (MainCpp.app_main_loop s x).state.leds_on = !s.leds_on) := by
    intro s x
    obtain ⟨f1, f2, f3, f4⟩ := cpp_loop_flags s x
    refine ⟨?_, ?_, ?_, ?_⟩
    · intro h; rw [f1, h]; rfl
    · intro h; rw [f2, h]; rfl
    · intro h; rw [f3, h]; rfl
    · intro h; rw [f4, h]; rfl
  refine ⟨step, ?_⟩
  intro s ins
  induction ins generalizing s with
  | nil => simp [MainCpp.app_main_run]
  | cons x xs ih =>
    obtain ⟨i1, i2, i3, i4⟩ := ih (MainCpp.app_main_loop s x).state
    obtain ⟨s1, s2, s3, s4⟩ := step s x
    have par : ∀ b : Bool, (if xs.length % 2 = 0 then !b else !(!b)) =
        (if (x :: xs).length % 2 = 0 then b else !b) := by
      intro b
      rw [List.length_cons]
      rcases Nat.mod_two_eq_zero_or_one xs.length with h | h
      · have h2 : (xs.length + 1) % 2 = 1 := by omega
        simp [h, h2]
      · have h2 : (xs.length + 1) % 2 = 0 := by omega
        simp [h, h2]
    refine ⟨?_, ?_, ?_, ?_⟩
    · intro h
      rw [cpp_run_cons, i1 (fun m hm => h m (List.mem_cons_of_mem x hm)),
        s1 (h x (List.mem_cons_self x xs))]
      exact par _
    · intro h
      rw [cpp_run_cons, i2 (fun m hm => h m (List.mem_cons_of_mem x hm)),
        s2 (h x (List.mem_cons_self x xs))]
      exact par _
    · intro h
      rw [cpp_run_cons, i3 (fun m hm => h m (List.mem_cons_of_mem x hm)),
        s3 (h x (List.mem_cons_self x xs))]
      exact par _
    · intro h
      rw [cpp_run_cons, i4 (fun m hm => h m (List.mem_cons_of_mem x hm)),
        s4 (h x (List.mem_cons_self x xs))]
      exact par _

/-- C10 at a concrete input: the green button held low for three iterations
leaves the green flag inverted, having flipped it in each of them. -/
theorem C10_level_triggered_toggle_witness :
    (MainCpp.app_main_run MainCpp.app_main_init
        [{ green := 0, yellow := 1, red := 1, onOff := 1 },
         { green := 0, yellow := 1, red := 1, onOff := 1 },
         { green := 0, yellow := 1, red := 1, onOff := 1 }]).green_led_on =
      (if [({ green := 0, yellow := 1, red := 1, onOff := 1 } : MainCpp.Levels),
           { green := 0, yellow := 1, red := 1, onOff := 1 },
           { green := 0, yellow := 1, red := 1, onOff := 1 }].length % 2 = 0
        then MainCpp.app_main_init.green_led_on else !MainCpp.app_main_init.green_led_on) ∧
    (MainCpp.app_main_run MainCpp.app_main_init
        [{ green := 0, yellow := 1, red := 1, onOff := 1 },
         { green := 0, yellow := 1, red := 1, onOff := 1 },
         { green := 0, yellow := 1, red := 1, onOff := 1 }]).green_led_on = true :=
  ⟨(C10_level_triggered_toggle.2 MainCpp.app_main_init
      [{ green := 0, yellow := 1, red := 1, onOff := 1 },
       { green := 0, yellow := 1, red := 1, onOff := 1 },
       { green := 0, yellow := 1, red := 1, onOff := 1 }]).1 (by decide),
   by decide⟩

end Esp32Oled
